import Mathlib

/-!
Verification of the churn-prediction application in `src/main.py`.

The file embeds the core of the program shallowly:

* `prepare_input` — the feature encoder: builds the 13-field dictionary and
  the one-row DataFrame passed to the models (`src/main.py` lines 60–80);
* `load_model` — the artifact loader with its `FileNotFoundError` /
  `pickle.UnpicklingError` handling (`src/main.py` lines 16–25);
* `make_predictions` — the prediction aggregator, including the streamlit
  rendering calls it performs (`src/main.py` lines 83–109), together with
  the chart-construction helpers `create_gauge_chart` and
  `create_model_probability_chart` (lines 33–57).

Python floats are represented as rationals (`ℚ`); Python dicts preserving
insertion order are represented as association lists; a pandas DataFrame
built from a list of row dictionaries is represented as the list of those
rows.  Effects are made explicit: `load_model` returns the list of
`st.error` reports it makes, and `make_predictions` returns — besides the
`avg_probability` value that the Python function returns — the internal
per-model probability map and the ordered trace of streamlit calls it
performs, so that purity claims about it can be stated.
-/

namespace ChurnApp

/-- A row dictionary: field name to numeric value, in insertion order. -/
abbrev FieldDict := List (String × ℚ)

/-- A pandas DataFrame built from a list of row dictionaries. -/
abbrev InputDF := List FieldDict

/-- Python `int()` applied to a boolean: `True ↦ 1`, `False ↦ 0`. -/
def pyInt (b : Bool) : ℚ := if b then 1 else 0

/-- Dictionary lookup: the value stored under `key`, if any. -/
def dictGet (d : FieldDict) (key : String) : Option ℚ :=
  (d.find? (fun p => p.1 == key)).map (fun p => p.2)

/-- Embedding of `prepare_input` (`src/main.py` lines 60–80): builds the
13-field `input_dict` in the source's insertion order and the one-row
DataFrame `pd.DataFrame([input_dict])`, and returns both. -/
def prepare_input (credit_score : ℤ) (location gender : String) (age tenure : ℤ)
    (balance : ℚ) (num_products : ℤ) (has_credit_card is_active_member : Bool)
    (estimated_salary : ℚ) : InputDF × FieldDict :=
  let input_dict : FieldDict := [
    ("CreditScore", (credit_score : ℚ)),
    ("Age", (age : ℚ)),
    ("Tenure", (tenure : ℚ)),
    ("Balance", balance),
    ("NumOfProducts", (num_products : ℚ)),
    ("HasCrCard", pyInt has_credit_card),
    ("IsActiveMember", pyInt is_active_member),
    ("EstimatedSalary", estimated_salary),
    ("Geography_France", if location = "France" then 1 else 0),
    ("Geography_Germany", if location = "Germany" then 1 else 0),
    ("Geography_Spain", if location = "Spain" then 1 else 0),
    ("Gender_Male", if gender = "Male" then 1 else 0),
    ("Gender_Female", if gender = "Female" then 1 else 0)]
  ([input_dict], input_dict)

/-- Outcome of opening a file: either its contents or `FileNotFoundError`. -/
inductive OpenResult (B : Type) : Type
  | ok (contents : B)
  | fileNotFound
deriving DecidableEq

/-- Outcome of `pickle.load`: a model or `pickle.UnpicklingError`. -/
inductive PickleResult (M : Type) : Type
  | ok (m : M)
  | unpicklingError
deriving DecidableEq

/-- An `st.error` report made by `load_model`, carrying the filename the
message names. -/
inductive LoadError : Type
  | fileNotFound (filename : String)
  | corruptFile (filename : String)
deriving DecidableEq

/-- Result of `load_model`: the returned value (the model, or `None`) and
the list of `st.error` reports made. -/
structure LoadOutcome (M : Type) : Type where
  model : Option M
  errors : List LoadError
deriving DecidableEq

/-- Embedding of `load_model` (`src/main.py` lines 16–25), parametric in the
file system (`fs`, what `open` yields on a path) and the deserializer
(`pickleLoad`, what `pickle.load` yields on the file contents).  On
`FileNotFoundError` it reports via `st.error` and returns `None`; on
`pickle.UnpicklingError` it reports via `st.error` and returns `None`;
otherwise it returns the loaded model. -/
def load_model {B M : Type} (fs : String → OpenResult B)
    (pickleLoad : B → PickleResult M) (filename : String) : LoadOutcome M :=
  match fs filename with
  | OpenResult.fileNotFound =>
      { model := none, errors := [LoadError.fileNotFound filename] }
  | OpenResult.ok contents =>
      match pickleLoad contents with
      | PickleResult.ok m => { model := some m, errors := [] }
      | PickleResult.unpicklingError =>
          { model := none, errors := [LoadError.corruptFile filename] }

/-- A plotly figure, as built by the two chart helpers: the gauge indicator
carries the value passed (`value * 100`), the bar chart carries the model
names and probabilities. -/
inductive Chart : Type
  | gauge (value : ℚ)
  | bar (x : List String) (y : List ℚ)
deriving DecidableEq

/-- Embedding of `create_gauge_chart` (`src/main.py` lines 33–41): an
indicator figure whose value is `value * 100`. -/
def create_gauge_chart (value : ℚ) : Chart := Chart.gauge (value * 100)

/-- Embedding of `create_model_probability_chart` (`src/main.py` lines
43–57): a bar figure over the map's keys and values. -/
def create_model_probability_chart (probabilities : List (String × ℚ)) : Chart :=
  Chart.bar (probabilities.map Prod.fst) (probabilities.map Prod.snd)

/-- A streamlit call performed by `make_predictions`, carrying the data
passed to it.  `write_model_prob` is the per-model `st.write` line,
`write_avg` the average-probability line, `write_churn` the sentence under
the gauge chart. -/
inductive StCall : Type
  | markdown (text : String)
  | write_model_prob (model : String) (prob : ℚ)
  | write_avg (prob : ℚ)
  | columns (n : ℕ)
  | plotly_chart (fig : Chart)
  | write_churn (prob : ℚ)
deriving DecidableEq

/-- Embedding of `np.mean` on a list: sum divided by length. -/
def np_mean (l : List ℚ) : ℚ := l.sum / l.length

/-- A loaded model artifact: its single used capability,
`predict_proba(df)`, yielding one row of class probabilities per input row. -/
structure Model : Type where
  predict_proba : InputDF → List (List ℚ)

/-- The `[0][1]` indexing the aggregator applies to `predict_proba`'s
result: row 0, class index 1 (the positive class of the binary
classifier). -/
def positiveProb (m : Model) (input_df : InputDF) : ℚ :=
  ((m.predict_proba input_df).getD 0 []).getD 1 0

/-- Everything observable about a run of `make_predictions`: the internal
`probabilities` map, the `avg_probability` the Python function returns, and
the ordered trace of streamlit calls the function performs. -/
structure PredictionOutput : Type where
  probabilities : List (String × ℚ)
  avg_probability : ℚ
  trace : List StCall
deriving DecidableEq

/-- Embedding of `make_predictions` (`src/main.py` lines 83–109): builds the
three-entry probability map by calling each model's `predict_proba` on the
same `input_df` and taking entry `[0][1]`, averages the values with
`np.mean`, and performs the streamlit calls of lines 93–107 in order. -/
def make_predictions (xgboost_model random_forest_model knn_model : Model)
    (input_df : InputDF) : PredictionOutput :=
  let probabilities : List (String × ℚ) := [
    ("XGBoost", positiveProb xgboost_model input_df),
    ("Random Forest", positiveProb random_forest_model input_df),
    ("K-Nearest Neighbors", positiveProb knn_model input_df)]
  let avg_probability : ℚ := np_mean (probabilities.map Prod.snd)
  { probabilities := probabilities,
    avg_probability := avg_probability,
    trace :=
      [StCall.markdown "### Model Probabilities"] ++
      probabilities.map (fun p => StCall.write_model_prob p.1 p.2) ++
      [StCall.write_avg avg_probability,
       StCall.columns 2,
       StCall.plotly_chart (create_gauge_chart avg_probability),
       StCall.write_churn avg_probability,
       StCall.plotly_chart (create_model_probability_chart probabilities)] }

/-- C6: for location `"Germany"` and gender `"Female"`, with all other input
fields arbitrary, the encoder's indicator fields equal
`Geography_France = 0`, `Geography_Germany = 1`, `Geography_Spain = 0`,
`Gender_Male = 0`, `Gender_Female = 1`. -/
theorem prepare_input_germany_female (credit_score age tenure num_products : ℤ)
    (balance estimated_salary : ℚ) (has_credit_card is_active_member : Bool) :
    dictGet (prepare_input credit_score "Germany" "Female" age tenure balance
      num_products has_credit_card is_active_member estimated_salary).2
      "Geography_France" = some 0 ∧
    dictGet (prepare_input credit_score "Germany" "Female" age tenure balance
      num_products has_credit_card is_active_member estimated_salary).2
      "Geography_Germany" = some 1 ∧
    dictGet (prepare_input credit_score "Germany" "Female" age tenure balance
      num_products has_credit_card is_active_member estimated_salary).2
      "Geography_Spain" = some 0 ∧
    dictGet (prepare_input credit_score "Germany" "Female" age tenure balance
      num_products has_credit_card is_active_member estimated_salary).2
      "Gender_Male" = some 0 ∧
    dictGet (prepare_input credit_score "Germany" "Female" age tenure balance
      num_products has_credit_card is_active_member estimated_salary).2
      "Gender_Female" = some 1 :=
  ⟨rfl, rfl, rfl, rfl, rfl⟩

/-- C9: the two values returned by `prepare_input` are consistent
representations of the same encoding: the returned DataFrame has exactly one
row, and that row agrees with the returned dictionary under every field
name. -/
theorem prepare_input_df_dict_consistent (credit_score : ℤ)
    (location gender : String) (age tenure : ℤ) (balance : ℚ)
    (num_products : ℤ) (has_credit_card is_active_member : Bool)
    (estimated_salary : ℚ) :
    (prepare_input credit_score location gender age tenure balance num_products
      has_credit_card is_active_member estimated_salary).1.length = 1 ∧
    ∀ key : String,
      dictGet ((prepare_input credit_score location gender age tenure balance
        num_products has_credit_card is_active_member
        estimated_salary).1.headD []) key =
      dictGet (prepare_input credit_score location gender age tenure balance
        num_products has_credit_card is_active_member estimated_salary).2 key :=
  ⟨rfl, fun _ => rfl⟩

/-- C10: the boolean fields `has_credit_card` and `is_active_member` appear
in the encoded vector as their Python `int()` conversion, which is always
`0` or `1`. -/
theorem prepare_input_bool_fields_binary (credit_score : ℤ)
    (location gender : String) (age tenure : ℤ) (balance : ℚ)
    (num_products : ℤ) (has_credit_card is_active_member : Bool)
    (estimated_salary : ℚ) :
    dictGet (prepare_input credit_score location gender age tenure balance
      num_products has_credit_card is_active_member estimated_salary).2
      "HasCrCard" = some (pyInt has_credit_card) ∧
    dictGet (prepare_input credit_score location gender age tenure balance
      num_products has_credit_card is_active_member estimated_salary).2
      "IsActiveMember" = some (pyInt is_active_member) ∧
    (pyInt has_credit_card = 0 ∨ pyInt has_credit_card = 1) ∧
    (pyInt is_active_member = 0 ∨ pyInt is_active_member = 1) := by
  refine ⟨rfl, rfl, ?_, ?_⟩
  · cases has_credit_card <;> simp [pyInt]
  · cases is_active_member <;> simp [pyInt]

/-- C7: the aggregator invokes each of the three registered models with the
identical encoded vector, records for each the positive-class probability
(class index 1 of row 0 of `predict_proba`), and the resulting probability
map has exactly 3 entries, one per registered model. -/
theorem make_predictions_three_model_map
    (xgboost_model random_forest_model knn_model : Model) (input_df : InputDF) :
    (make_predictions xgboost_model random_forest_model knn_model
      input_df).probabilities =
      [("XGBoost", positiveProb xgboost_model input_df),
       ("Random Forest", positiveProb random_forest_model input_df),
       ("K-Nearest Neighbors", positiveProb knn_model input_df)] ∧
    (make_predictions xgboost_model random_forest_model knn_model
      input_df).probabilities.length = 3 :=
  ⟨rfl, rfl⟩

/-- C2: the aggregate probability equals the unweighted arithmetic mean of
the three per-model probabilities; in particular, for per-model
probabilities 0.2, 0.5, 0.8 the aggregate equals 0.5 exactly. -/
theorem make_predictions_avg_is_mean
    (xgboost_model random_forest_model knn_model : Model) (input_df : InputDF) :
    (make_predictions xgboost_model random_forest_model knn_model
      input_df).avg_probability =
      (positiveProb xgboost_model input_df +
       positiveProb random_forest_model input_df +
       positiveProb knn_model input_df) / 3 ∧
    ∀ df : InputDF,
      (make_predictions (Model.mk fun _ => [[0.8, 0.2]])
        (Model.mk fun _ => [[0.5, 0.5]])
        (Model.mk fun _ => [[0.2, 0.8]]) df).avg_probability = 0.5 := by
  constructor
  · simp [make_predictions, np_mean]
    ring
  · intro df
    norm_num [make_predictions, np_mean, positiveProb]

/-- C1: for every customer record whose location is one of France, Germany,
Spain and whose gender is one of Male, Female, the encoder produces a
13-field vector in which exactly one of the 3 location indicators equals 1,
exactly one of the 2 gender indicators equals 1, and the remaining 8 fields
equal the corresponding raw input values unchanged (the two boolean fields
pass through as their Python numeric value, `int(b)`, which equals the
boolean under Python value equality). -/
theorem prepare_input_one_hot_passthrough (credit_score age tenure num_products : ℤ)
    (location gender : String) (balance estimated_salary : ℚ)
    (has_credit_card is_active_member : Bool)
    (hloc : location = "France" ∨ location = "Germany" ∨ location = "Spain")
    (hgen : gender = "Male" ∨ gender = "Female") :
    (prepare_input credit_score location gender age tenure balance num_products
      has_credit_card is_active_member estimated_salary).2.length = 13 ∧
    [dictGet (prepare_input credit_score location gender age tenure balance
        num_products has_credit_card is_active_member estimated_salary).2
        "Geography_France",
     dictGet (prepare_input credit_score location gender age tenure balance
        num_products has_credit_card is_active_member estimated_salary).2
        "Geography_Germany",
     dictGet (prepare_input credit_score location gender age tenure balance
        num_products has_credit_card is_active_member estimated_salary).2
        "Geography_Spain"].count (some (1 : ℚ)) = 1 ∧
    [dictGet (prepare_input credit_score location gender age tenure balance
        num_products has_credit_card is_active_member estimated_salary).2
        "Gender_Male",
     dictGet (prepare_input credit_score location gender age tenure balance
        num_products has_credit_card is_active_member estimated_salary).2
        "Gender_Female"].count (some (1 : ℚ)) = 1 ∧
    dictGet (prepare_input credit_score location gender age tenure balance
      num_products has_credit_card is_active_member estimated_salary).2
      "CreditScore" = some (credit_score : ℚ) ∧
    dictGet (prepare_input credit_score location gender age tenure balance
      num_products has_credit_card is_active_member estimated_salary).2
      "Age" = some (age : ℚ) ∧
    dictGet (prepare_input credit_score location gender age tenure balance
      num_products has_credit_card is_active_member estimated_salary).2
      "Tenure" = some (tenure : ℚ) ∧
    dictGet (prepare_input credit_score location gender age tenure balance
      num_products has_credit_card is_active_member estimated_salary).2
      "Balance" = some balance ∧
    dictGet (prepare_input credit_score location gender age tenure balance
      num_products has_credit_card is_active_member estimated_salary).2
      "NumOfProducts" = some (num_products : ℚ) ∧
    dictGet (prepare_input credit_score location gender age tenure balance
      num_products has_credit_card is_active_member estimated_salary).2
      "HasCrCard" = some (pyInt has_credit_card) ∧
    dictGet (prepare_input credit_score location gender age tenure balance
      num_products has_credit_card is_active_member estimated_salary).2
      "IsActiveMember" = some (pyInt is_active_member) ∧
    dictGet (prepare_input credit_score location gender age tenure balance
      num_products has_credit_card is_active_member estimated_salary).2
      "EstimatedSalary" = some estimated_salary := by
  rcases hloc with h | h | h <;> subst h <;>
    rcases hgen with h | h <;> subst h <;>
      exact ⟨rfl, rfl, rfl, rfl, rfl, rfl, rfl, rfl, rfl, rfl, rfl⟩

/-- Witness for C1 at a concrete customer record. -/
theorem prepare_input_one_hot_passthrough_witness :
    (prepare_input 650 "Spain" "Female" 40 3 50000 2 true true 60000).2.length
      = 13 ∧
    [dictGet (prepare_input 650 "Spain" "Female" 40 3 50000 2 true true
        60000).2 "Geography_France",
     dictGet (prepare_input 650 "Spain" "Female" 40 3 50000 2 true true
        60000).2 "Geography_Germany",
     dictGet (prepare_input 650 "Spain" "Female" 40 3 50000 2 true true
        60000).2 "Geography_Spain"].count (some (1 : ℚ)) = 1 ∧
    [dictGet (prepare_input 650 "Spain" "Female" 40 3 50000 2 true true
        60000).2 "Gender_Male",
     dictGet (prepare_input 650 "Spain" "Female" 40 3 50000 2 true true
        60000).2 "Gender_Female"].count (some (1 : ℚ)) = 1 ∧
    dictGet (prepare_input 650 "Spain" "Female" 40 3 50000 2 true true 60000).2
      "CreditScore" = some ((650 : ℤ) : ℚ) ∧
    dictGet (prepare_input 650 "Spain" "Female" 40 3 50000 2 true true 60000).2
      "Age" = some ((40 : ℤ) : ℚ) ∧
    dictGet (prepare_input 650 "Spain" "Female" 40 3 50000 2 true true 60000).2
      "Tenure" = some ((3 : ℤ) : ℚ) ∧
    dictGet (prepare_input 650 "Spain" "Female" 40 3 50000 2 true true 60000).2
      "Balance" = some 50000 ∧
    dictGet (prepare_input 650 "Spain" "Female" 40 3 50000 2 true true 60000).2
      "NumOfProducts" = some ((2 : ℤ) : ℚ) ∧
    dictGet (prepare_input 650 "Spain" "Female" 40 3 50000 2 true true 60000).2
      "HasCrCard" = some (pyInt true) ∧
    dictGet (prepare_input 650 "Spain" "Female" 40 3 50000 2 true true 60000).2
      "IsActiveMember" = some (pyInt true) ∧
    dictGet (prepare_input 650 "Spain" "Female" 40 3 50000 2 true true 60000).2
      "EstimatedSalary" = some 60000 :=
  prepare_input_one_hot_passthrough 650 40 3 2 "Spain" "Female" 50000 60000
    true true (Or.inr (Or.inr rfl)) (Or.inr rfl)

/-- C5: for every input whose location string is not one of the 3 recognized
values, the encoder produces all three location indicators equal to 0,
silently — the full 13-field vector is still produced and no error is
raised. -/
theorem prepare_input_unrecognized_location (credit_score age tenure num_products : ℤ)
    (location gender : String) (balance estimated_salary : ℚ)
    (has_credit_card is_active_member : Bool)
    (h1 : location ≠ "France") (h2 : location ≠ "Germany")
    (h3 : location ≠ "Spain") :
    dictGet (prepare_input credit_score location gender age tenure balance
      num_products has_credit_card is_active_member estimated_salary).2
      "Geography_France" = some 0 ∧
    dictGet (prepare_input credit_score location gender age tenure balance
      num_products has_credit_card is_active_member estimated_salary).2
      "Geography_Germany" = some 0 ∧
    dictGet (prepare_input credit_score location gender age tenure balance
      num_products has_credit_card is_active_member estimated_salary).2
      "Geography_Spain" = some 0 ∧
    (prepare_input credit_score location gender age tenure balance
      num_products has_credit_card is_active_member estimated_salary).2.length
      = 13 := by
  refine ⟨?_, ?_, ?_, rfl⟩
  · rw [show dictGet (prepare_input credit_score location gender age tenure
      balance num_products has_credit_card is_active_member
      estimated_salary).2 "Geography_France" =
        some (if location = "France" then (1 : ℚ) else 0) from rfl, if_neg h1]
  · rw [show dictGet (prepare_input credit_score location gender age tenure
      balance num_products has_credit_card is_active_member
      estimated_salary).2 "Geography_Germany" =
        some (if location = "Germany" then (1 : ℚ) else 0) from rfl, if_neg h2]
  · rw [show dictGet (prepare_input credit_score location gender age tenure
      balance num_products has_credit_card is_active_member
      estimated_salary).2 "Geography_Spain" =
        some (if location = "Spain" then (1 : ℚ) else 0) from rfl, if_neg h3]

/-- Witness for C5 at the unrecognized location string `"Italy"`. -/
theorem prepare_input_unrecognized_location_witness :
    dictGet (prepare_input 650 "Italy" "Female" 40 3 50000 2 true true 60000).2
      "Geography_France" = some 0 ∧
    dictGet (prepare_input 650 "Italy" "Female" 40 3 50000 2 true true 60000).2
      "Geography_Germany" = some 0 ∧
    dictGet (prepare_input 650 "Italy" "Female" 40 3 50000 2 true true 60000).2
      "Geography_Spain" = some 0 ∧
    (prepare_input 650 "Italy" "Female" 40 3 50000 2 true true 60000).2.length
      = 13 :=
  prepare_input_unrecognized_location 650 40 3 2 "Italy" "Female" 50000 60000
    true true (by decide) (by decide) (by decide)

/-- C8: the feature encoder is pure, total and deterministic: two runs on
identical inputs return equal outputs, and on every well-typed input the
full 13-field vector is produced (no failure mode). -/
theorem prepare_input_deterministic_total (credit_score credit_score2 : ℤ)
    (location location2 gender gender2 : String) (age age2 tenure tenure2 : ℤ)
    (balance balance2 : ℚ) (num_products num_products2 : ℤ)
    (has_credit_card has_credit_card2 is_active_member is_active_member2 : Bool)
    (estimated_salary estimated_salary2 : ℚ)
    (h : (credit_score, location, gender, age, tenure, balance, num_products,
          has_credit_card, is_active_member, estimated_salary) =
         (credit_score2, location2, gender2, age2, tenure2, balance2,
          num_products2, has_credit_card2, is_active_member2,
          estimated_salary2)) :
    prepare_input credit_score location gender age tenure balance num_products
      has_credit_card is_active_member estimated_salary =
    prepare_input credit_score2 location2 gender2 age2 tenure2 balance2
      num_products2 has_credit_card2 is_active_member2 estimated_salary2 ∧
    (prepare_input credit_score location gender age tenure balance num_products
      has_credit_card is_active_member estimated_salary).2.length = 13 := by
  simp only [Prod.mk.injEq] at h
  obtain ⟨rfl, rfl, rfl, rfl, rfl, rfl, rfl, rfl, rfl, rfl⟩ := h
  exact ⟨rfl, rfl⟩

/-- Witness for C8 at a concrete record compared with itself. -/
theorem prepare_input_deterministic_total_witness :
    prepare_input 650 "Spain" "Female" 40 3 50000 2 true true 60000 =
      prepare_input 650 "Spain" "Female" 40 3 50000 2 true true 60000 ∧
    (prepare_input 650 "Spain" "Female" 40 3 50000 2 true true 60000).2.length
      = 13 :=
  prepare_input_deterministic_total 650 650 "Spain" "Spain" "Female" "Female"
    40 40 3 3 50000 50000 2 2 true true true true 60000 60000 rfl

/-- C3 counterexample: `make_predictions` is not free of side effects — on a
concrete encoded vector and concrete models it performs a nonempty sequence
of streamlit rendering calls itself, contradicting the claim that all
rendering is left to the presentation layer. -/
theorem make_predictions_renders_counterexample :
    (make_predictions (Model.mk fun _ => [[1, 0]]) (Model.mk fun _ => [[1, 0]])
      (Model.mk fun _ => [[1, 0]])
      (prepare_input 650 "Spain" "Female" 40 3 50000 2 true true
        60000).1).trace ≠ [] := by
  simp [make_predictions]

/-- C3 amended: `make_predictions` computes the probability map and the
aggregate as a pure, deterministic function of the encoded vector and the
three models, but it does not leave rendering to the presentation layer: it
itself performs a fixed nonempty sequence of streamlit rendering calls — a
markdown heading, the three per-model write lines, the average write line, a
two-column layout call, the gauge chart, the churn sentence, and the
per-model bar chart. -/
theorem make_predictions_value_pure_but_renders
    (xgboost_model random_forest_model knn_model : Model) (input_df : InputDF) :
    (make_predictions xgboost_model random_forest_model knn_model
      input_df).avg_probability =
      np_mean [positiveProb xgboost_model input_df,
               positiveProb random_forest_model input_df,
               positiveProb knn_model input_df] ∧
    (make_predictions xgboost_model random_forest_model knn_model
      input_df).trace =
      [StCall.markdown "### Model Probabilities",
       StCall.write_model_prob "XGBoost" (positiveProb xgboost_model input_df),
       StCall.write_model_prob "Random Forest"
         (positiveProb random_forest_model input_df),
       StCall.write_model_prob "K-Nearest Neighbors"
         (positiveProb knn_model input_df),
       StCall.write_avg (make_predictions xgboost_model random_forest_model
         knn_model input_df).avg_probability,
       StCall.columns 2,
       StCall.plotly_chart (create_gauge_chart (make_predictions xgboost_model
         random_forest_model knn_model input_df).avg_probability),
       StCall.write_churn (make_predictions xgboost_model random_forest_model
         knn_model input_df).avg_probability,
       StCall.plotly_chart (create_model_probability_chart
         (make_predictions xgboost_model random_forest_model knn_model
           input_df).probabilities)] ∧
    (make_predictions xgboost_model random_forest_model knn_model
      input_df).trace ≠ [] := by
  refine ⟨rfl, rfl, ?_⟩
  simp [make_predictions]

/-- C4: loading a model artifact from a nonexistent file path reports a
not-found condition via `st.error` and returns `None` rather than raising an
unhandled crash; loading a malformed artifact fails with the deserialization
error handled the same way. -/
theorem load_model_error_handling {B M : Type} (fs : String → OpenResult B)
    (pickleLoad : B → PickleResult M) (filename : String) :
    (fs filename = OpenResult.fileNotFound →
      load_model fs pickleLoad filename =
        { model := none, errors := [LoadError.fileNotFound filename] }) ∧
    (∀ contents : B, fs filename = OpenResult.ok contents →
      pickleLoad contents = PickleResult.unpicklingError →
      load_model fs pickleLoad filename =
        { model := none, errors := [LoadError.corruptFile filename] }) := by
  constructor
  · intro h
    simp [load_model, h]
  · intro contents hfs hpickle
    simp [load_model, hfs, hpickle]

/-- Witness for C4: a file system on which the path is missing, and one on
which the artifact is present but corrupt. -/
theorem load_model_error_handling_witness :
    load_model (fun _ : String => OpenResult.fileNotFound (B := Unit))
      (fun _ : Unit => PickleResult.ok ()) "xgb_model.pkl" =
      { model := none, errors := [LoadError.fileNotFound "xgb_model.pkl"] } ∧
    load_model (fun _ : String => OpenResult.ok ())
      (fun _ : Unit => PickleResult.unpicklingError (M := Unit))
      "rf_model.pkl" =
      { model := none, errors := [LoadError.corruptFile "rf_model.pkl"] } :=
  ⟨(load_model_error_handling (fun _ : String => OpenResult.fileNotFound)
      (fun _ : Unit => PickleResult.ok ()) "xgb_model.pkl").1 rfl,
   (load_model_error_handling (fun _ : String => OpenResult.ok ())
      (fun _ : Unit => PickleResult.unpicklingError) "rf_model.pkl").2 () rfl
      rfl⟩

end ChurnApp
